import Mathlib

/-!
Verification development for the desksky deck-compilation pipeline.

Shallow embedding of the Python sources:
  * `themes.py`            — theme table, hex conversion, `get_theme`
  * `slides_generator.py`  — `SlidesGenerator.__init__` theme fallback,
                             `_parse_gpt_response`, `transform_slide_to_requests`,
                             `_apply_theme_to_slide`
  * `app.py`               — `generate_slide_content_with_gpt`,
                             `transform_slide_content`, `create_slides`

Conventions: Python floats are modelled as rationals; Python dicts with a
fixed key set are modelled as structures with `Option` fields (a `none`
field models an absent key); Python exceptions are modelled with
`Except String`; the stdlib JSON parser `json.loads` is modelled by its
outcome (parse error / parsed non-list / parsed list of records), since it
is library code, not code of this repository.
-/

/-- The ASCII whitespace characters `str.strip()` removes. -/
def isPySpace (c : Char) : Bool :=
  c = ' ' ∨ c = '\t' ∨ c = '\n' ∨ c = '\r' ∨ c = '\x0b' ∨ c = '\x0c'

/-- Python `str.strip()` (both-ends whitespace strip). -/
def pyStrip (s : String) : String :=
  String.mk (((s.toList.dropWhile isPySpace).reverse.dropWhile isPySpace).reverse)

/-- An RGB color as built by the Python sources: `red`/`green`/`blue`
components, plus an optional `alpha` key (`hex_to_rgb_float` sets
`alpha = 1.0`; the hard-coded default theme dicts in
`SlidesGenerator.__init__` carry no alpha key). -/
structure Rgb where
  red : ℚ
  green : ℚ
  blue : ℚ
  alpha : Option ℚ
deriving DecidableEq

/-- Value of one hexadecimal digit, as `int(c, 16)` reads it. -/
def hexDigit (c : Char) : ℕ :=
  if ('0' ≤ c ∧ c ≤ '9') then c.toNat - '0'.toNat
  else if ('a' ≤ c ∧ c ≤ 'f') then c.toNat - 'a'.toNat + 10
  else if ('A' ≤ c ∧ c ≤ 'F') then c.toNat - 'A'.toNat + 10
  else 0

/-- `themes.hex_to_rgb_float`: strip leading `#`, read the three
two-hex-digit components, divide by 255, attach `alpha = 1.0`. -/
def hex_to_rgb_float (hex_color : String) : Rgb :=
  let h := hex_color.toList.dropWhile (fun c => c = '#')
  let comp := fun (i : ℕ) =>
    ((hexDigit (h.getD i '0') * 16 + hexDigit (h.getD (i + 1) '0') : ℕ) : ℚ) / 255
  { red := comp 0, green := comp 2, blue := comp 4, alpha := some 1 }

/-- The `colors` sub-dict of one entry of `PRESENTATION_THEMES`. -/
structure ThemeColors where
  background : String
  title_text : String
  body_text : String
  shape_fill : String
deriving DecidableEq

/-- The `rgb_colors` dict that `get_theme` computes and stores. -/
structure ThemeRgb where
  background : Rgb
  title_text : Rgb
  body_text : Rgb
  shape_fill : Rgb
deriving DecidableEq

/-- One entry of `PRESENTATION_THEMES`.  The `rgb_colors` key is absent
(`none`) in the initial table and is written by `get_theme`. -/
structure ThemeEntry where
  name : String
  description : String
  colors : ThemeColors
  rgb_colors : Option ThemeRgb
deriving DecidableEq

def corporateEntry : ThemeEntry :=
  { name := "Corporate", description := "Clean and professional",
    colors := { background := "#FFFFFF", title_text := "#003366",
                body_text := "#000000", shape_fill := "#E6EEF4" },
    rgb_colors := none }

def elegantEntry : ThemeEntry :=
  { name := "Elegant", description := "Soft, classy tones",
    colors := { background := "#FDFDFD", title_text := "#5C5470",
                body_text := "#333333", shape_fill := "#EAEAEA" },
    rgb_colors := none }

def vibrantEntry : ThemeEntry :=
  { name := "Vibrant", description := "Energetic and colorful",
    colors := { background := "#FFFBEC", title_text := "#FF6F00",
                body_text := "#212121", shape_fill := "#FFD180" },
    rgb_colors := none }

def minimalEntry : ThemeEntry :=
  { name := "Minimal", description := "Modern and clean",
    colors := { background := "#FAFAFA", title_text := "#212121",
                body_text := "#424242", shape_fill := "#BDBDBD" },
    rgb_colors := none }

def darkEntry : ThemeEntry :=
  { name := "Dark Mode", description := "High contrast",
    colors := { background := "#1E1E1E", title_text := "#F5F5F5",
                body_text := "#E0E0E0", shape_fill := "#333333" },
    rgb_colors := none }

/-- `themes.PRESENTATION_THEMES`, as an insertion-ordered association list. -/
def PRESENTATION_THEMES : List (String × ThemeEntry) :=
  [("corporate", corporateEntry), ("elegant", elegantEntry),
   ("vibrant", vibrantEntry), ("minimal", minimalEntry), ("dark", darkEntry)]

/-- Python `dict.get` on an association list (first matching key). -/
def lookupTheme : List (String × ThemeEntry) → String → Option ThemeEntry
  | [], _ => none
  | (k, v) :: rest, id => if k = id then some v else lookupTheme rest id

/-- In-place mutation of the table entry for `id` (a Python dict holds one
shared object per key, so `theme[...] = ...` updates the table). -/
def writeTheme : List (String × ThemeEntry) → String → ThemeEntry →
    List (String × ThemeEntry)
  | [], _, _ => []
  | (k, v) :: rest, id, t =>
    if k = id then (k, t) :: rest else (k, v) :: writeTheme rest id t

/-- The `rgb_colors` dict computed by `get_theme`'s conversion loop. -/
def themeRgbOfColors (c : ThemeColors) : ThemeRgb :=
  { background := hex_to_rgb_float c.background,
    title_text := hex_to_rgb_float c.title_text,
    body_text := hex_to_rgb_float c.body_text,
    shape_fill := hex_to_rgb_float c.shape_fill }

/-- `theme['rgb_colors'] = rgb_colors`: the enriched entry object. -/
def enrichTheme (t : ThemeEntry) : ThemeEntry :=
  { t with rgb_colors := some (themeRgbOfColors t.colors) }

/-- `themes.get_theme`: look the id up; raise `ValueError` when absent;
otherwise compute `rgb_colors`, store it into the (shared, table-owned)
entry and return the entry.  The returned table is the post-call state of
`PRESENTATION_THEMES`. -/
def get_theme (theme_id : String) (table : List (String × ThemeEntry)) :
    Except String (ThemeEntry × List (String × ThemeEntry)) :=
  match lookupTheme table theme_id with
  | none => .error ("Theme " ++ theme_id ++ " not found")
  | some t =>
    let enriched := enrichTheme t
    .ok (enriched, writeTheme table theme_id enriched)

/-- The hard-coded fallback colors of `SlidesGenerator.__init__` (used when
`get_theme` raises).  These dicts carry no `alpha` key. -/
def defaultThemeRgb : ThemeRgb :=
  { background := { red := 1, green := 1, blue := 1, alpha := none },
    title_text := { red := 0, green := 0, blue := 0, alpha := none },
    body_text := { red := 1/5, green := 1/5, blue := 1/5, alpha := none },
    shape_fill := { red := 9/10, green := 9/10, blue := 9/10, alpha := none } }

/-- Theme resolution as performed by `SlidesGenerator.__init__`: call
`get_theme` on the process-wide table; on any exception, or when
`rgb_colors` is missing from the result, fall back to the default colors.
The generator only ever reads `self.theme['rgb_colors']`, so the resolved
value is a `ThemeRgb`. -/
def resolveTheme (theme_id : String) : ThemeRgb :=
  match get_theme theme_id PRESENTATION_THEMES with
  | .ok (t, _) => t.rgb_colors.getD defaultThemeRgb
  | .error _ => defaultThemeRgb

/-- Post-call state of the theme table after `get_theme theme_id` (the
pre-call state when the call raised). -/
def tableAfterGetTheme (theme_id : String) : List (String × ThemeEntry) :=
  match get_theme theme_id PRESENTATION_THEMES with
  | .ok (_, tb) => tb
  | .error _ => PRESENTATION_THEMES

/-- One JSON object of the generator outline, restricted to the keys the
normalizer reads.  A `none` field models an absent key. -/
structure RawEntry where
  type_ : Option String := none
  main_points : Option (List String) := none
  title : Option String := none
  content : Option (List String) := none
deriving DecidableEq

/-- One element of the parsed outline array: a JSON object or anything
else (a non-object element makes the normalizer raise). -/
inductive RawItem where
  | obj (e : RawEntry)
  | nonObj
deriving DecidableEq

/-- Result of `json.loads` on the cleaned generator response.  The parser
itself is Python stdlib; only its outcome matters to the repository code. -/
inductive ParseOutcome where
  | parseError (msg : String)
  | parsedNonList
  | parsedList (items : List RawItem)
deriving DecidableEq

/-- A processed slide as built by `generate_slide_content_with_gpt`:
`{id, title, content}`. -/
structure ProcessedSlide where
  id : String
  title : String
  content : List String
deriving DecidableEq

/-- One iteration of the processing loop of
`app.generate_slide_content_with_gpt` (lines 429–457).  `curTitle` is the
current value of the function-local variable `title` (initially the
caller-supplied presentation title; the legacy-format branch reassigns
it).  Returns the processed slide and the new value of `title`, or the
`ValueError` message the iteration raises. -/
def processEntry (curTitle : String) (i : ℕ) :
    RawItem → Except String (ProcessedSlide × String)
  | .nonObj => .error (s!"Slide {i} is not a dictionary")
  | .obj e =>
    if e.type_.isSome ∧ e.main_points.isSome then
      -- legacy {type, main_points} branch: title = main_points[0] if
      -- main_points else title; content = main_points[1:]
      let mps := e.main_points.getD []
      let newTitle := match mps with
        | [] => curTitle
        | p :: _ => p
      let content := mps.tail
      .ok ({ id := s!"slide_{i + 1}",
             title := if i = 0 then newTitle
               else if pyStrip newTitle = "" then s!"Slide {i + 1}"
               else pyStrip newTitle,
             content := content.map pyStrip }, newTitle)
    else if e.title.isNone ∨ e.content.isNone then
      .error (s!"Slide {i} missing required fields")
    else
      .ok ({ id := s!"slide_{i + 1}",
             title := if i = 0 then curTitle
               else if pyStrip (e.title.getD "") = "" then s!"Slide {i + 1}"
               else pyStrip (e.title.getD ""),
             content := (e.content.getD []).map pyStrip }, curTitle)

/-- The processing loop of `generate_slide_content_with_gpt`, threading
the mutable `title` variable. -/
def processSlides (curTitle : String) (i : ℕ) :
    List RawItem → Except String (List ProcessedSlide)
  | [] => .ok []
  | item :: rest =>
    match processEntry curTitle i item with
    | .error e => .error e
    | .ok (s, t2) =>
      match processSlides t2 (i + 1) rest with
      | .error e => .error e
      | .ok slides => .ok (s :: slides)

/-- `app.generate_slide_content_with_gpt`, from the point where the
cleaned response string is parsed: a parse failure or a non-list value
raises, and any `ValueError` from the loop is caught by the outer handler
and re-raised as the generic error. -/
def generate_slide_content (title : String) (raw : ParseOutcome) :
    Except String (List ProcessedSlide) :=
  match raw with
  | .parseError _ => .error "Failed to generate slide content"
  | .parsedNonList => .error "Failed to generate slide content"
  | .parsedList items =>
    match processSlides title 0 items with
    | .error _ => .error "Failed to generate slide content"
    | .ok slides => .ok slides

/-- The point-cleaning of `SlidesGenerator._parse_gpt_response`:
`point.strip().replace('"', "'")`. -/
def cleanPoint (p : String) : String :=
  (pyStrip p).map (fun c => if c = '\x22' then '\x27' else c)

/-- Validity check of one slide in `_parse_gpt_response`: it must be a
dict with `type` and `main_points` keys and a non-empty `main_points`
list. -/
def parseResponseItemOk : RawItem → Bool
  | .obj e => e.type_.isSome && e.main_points.isSome && !(e.main_points.getD []).isEmpty
  | .nonObj => false

/-- `SlidesGenerator._parse_gpt_response`, from the point where the
cleaned response is parsed.  Every exception path returns `None`. -/
def parse_gpt_response (raw : ParseOutcome) : Option (List RawItem) :=
  match raw with
  | .parseError _ => none
  | .parsedNonList => none
  | .parsedList items =>
    if items.all parseResponseItemOk then
      some (items.map (fun item =>
        match item with
        | .obj e =>
          let cleaned := e.main_points.map (fun mps =>
            (mps.filter (fun p => pyStrip p ≠ "")).map cleanPoint)
          .obj { e with main_points := cleaned }
        | .nonObj => item))
    else none

/-- A single wire-protocol instruction, restricted to the request kinds
and fields the repository emits.  `createSlide` carries the optional
`objectId`, the layout tag, the `placeholderIdMappings` (layout
placeholder type paired with the mapped object id) and the optional
`insertionIndex` (the sources never set one).  `updateTextStyle` carries
the styled object, foreground color, font size in PT and the optional
`bold` flag (absent from the body style's `fields` mask). -/
inductive Request where
  | createSlide (objectId : Option String) (layout : String)
      (placeholderIdMappings : List (String × String)) (insertionIndex : Option ℕ)
  | insertText (objectId : String) (text : String)
  | updateTextStyle (objectId : String) (color : Rgb) (fontSize : ℕ) (bold : Option Bool)
  | updateParagraphStyle (objectId : String)
  | updatePageProperties (objectId : String) (backgroundColor : Rgb)
  | updateShapeProperties (objectId : String) (fillColor : Rgb)
  | deleteObject (objectId : String)
deriving DecidableEq

/-- The slide dict read by `app.transform_slide_content`, restricted to
the keys that function reads. -/
structure TSlide where
  type_ : Option String := none
  title : Option String := none
  subtitle : Option String := none
  presenter : Option String := none
  date : Option String := none
  points : Option (List String) := none
  visual_guidance : Option String := none
  contact : Option String := none
deriving DecidableEq

/-- Python truthiness of `slide.get(key)` for a string value. -/
def truthyStr (o : Option String) : Bool := o.getD "" ≠ ""

/-- Python truthiness of `slide.get(key)` for a list value. -/
def truthyList (o : Option (List String)) : Bool := !(o.getD []).isEmpty

/-- `layout_mapping.get(slide_type, 'TITLE_AND_BODY')` of
`app.transform_slide_content`. -/
def layout_mapping_get (slide_type : String) : String :=
  if slide_type = "TITLE" then "TITLE"
  else if slide_type = "AGENDA" then "SECTION_HEADER"
  else if slide_type = "SECTION" then "TITLE_AND_BODY"
  else if slide_type = "SUMMARY" then "TITLE_AND_BODY"
  else if slide_type = "CLOSING" then "SECTION_HEADER"
  else "TITLE_AND_BODY"

/-- `('\n• ' + '\n• '.join(points)).strip()`. -/
def bulletJoin (points : List String) : String :=
  pyStrip ("\n• " ++ String.intercalate "\n• " points)

/-- The symbolic placeholder tokens of `app.transform_slide_content`. -/
def phTITLE : String := "\x7b\x7bTITLE\x7d\x7d"

def phSUBTITLE : String := "\x7b\x7bSUBTITLE\x7d\x7d"

def phBODY : String := "\x7b\x7bBODY\x7d\x7d"

def phFOOTER : String := "\x7b\x7bFOOTER\x7d\x7d"

/-- Result record of `app.transform_slide_content`. -/
structure Transformed where
  layout : String
  create_request : Request
  text_requests : List Request
deriving DecidableEq

/-- `app.transform_slide_content`: pick the layout from the fixed table
(the slide type defaults to `TITLE` when the `type` key is absent), build
a `createSlide` request with no object id, no insertion index and empty
placeholder mappings, and build the per-type `insertText` requests against
the symbolic placeholder tokens.  In this typed model the fallback
`except` branch is unreachable. -/
def transform_slide_content (slide : TSlide) : Transformed :=
  let slide_type := slide.type_.getD "TITLE"
  let layout := layout_mapping_get slide_type
  let create_request : Request := .createSlide none layout [] none
  let text_requests : List Request :=
    if slide_type = "TITLE" then
      [.insertText phTITLE (slide.title.getD "")]
      ++ (if truthyStr slide.subtitle then
            [.insertText phSUBTITLE (slide.subtitle.getD "")] else [])
      ++ (if truthyStr slide.presenter then
            [.insertText phBODY ("Presenter: " ++ slide.presenter.getD "")] else [])
      ++ (if truthyStr slide.date then
            [.insertText phFOOTER ("Date: " ++ slide.date.getD "")] else [])
    else if slide_type = "AGENDA" then
      [.insertText phTITLE (slide.title.getD "Agenda")]
      ++ (if truthyList slide.points then
            [.insertText phBODY (bulletJoin (slide.points.getD []))] else [])
    else if slide_type = "SECTION" then
      [.insertText phTITLE (slide.title.getD "")]
      ++ (if truthyList slide.points then
            [.insertText phBODY (bulletJoin (slide.points.getD []))] else [])
      ++ (if truthyStr slide.visual_guidance then
            [.insertText phFOOTER ("Visual Guidance: " ++ slide.visual_guidance.getD "")] else [])
    else if slide_type = "SUMMARY" then
      [.insertText phTITLE (slide.title.getD "Key Takeaways")]
      ++ (if truthyList slide.points then
            [.insertText phBODY (bulletJoin (slide.points.getD []))] else [])
    else if slide_type = "CLOSING" then
      [.insertText phTITLE (slide.title.getD "Thank You")]
      ++ (if truthyStr slide.subtitle then
            [.insertText phSUBTITLE (slide.subtitle.getD "")] else [])
      ++ (if truthyStr slide.contact then
            [.insertText phFOOTER ("Contact: " ++ slide.contact.getD "")] else [])
    else []
  { layout := layout, create_request := create_request, text_requests := text_requests }

/-- A processed slide, seen through the keys `transform_slide_content`
reads: only `title` is present (processed slides carry no `type`,
`subtitle`, `presenter`, `date`, `points`, `visual_guidance` or `contact`
key; the unread `id` and `content` keys are dropped). -/
def toTSlide (p : ProcessedSlide) : TSlide := { title := some p.title }

/-- The phase-1 batch of `app.create_slides` (lines 540–548): the
`create_request` of each transformed slide, in generator order. -/
def phase1Batch (slides_content : List ProcessedSlide) : List Request :=
  slides_content.map (fun s => (transform_slide_content (toTSlide s)).create_request)

/-- The slide dict consumed by `SlidesGenerator.transform_slide_to_requests`
after `create_presentation`'s coercion: a `title` and a `content` list. -/
structure GSlide where
  title : String
  content : List String
deriving DecidableEq

/-- `SlidesGenerator._apply_theme_to_slide`: background fill for the
slide, themed text styles for the `_title`/`_body` objects, shape fill for
the slide.  The title style sets `bold` in its `fields` mask; the body
style does not. -/
def apply_theme_to_slide (theme : ThemeRgb) (slide_id : String) : List Request :=
  [.updatePageProperties slide_id theme.background,
   .updateTextStyle (slide_id ++ "_title") theme.title_text 24 (some true),
   .updateTextStyle (slide_id ++ "_body") theme.body_text 18 none,
   .updateShapeProperties slide_id theme.shape_fill]

/-- `SlidesGenerator.transform_slide_to_requests`, with the fresh
`str(uuid.uuid4())` value passed in as `slide_id`: create the slide with
declared placeholder mappings, apply the theme, insert title and body
text, then re-apply the text styles. -/
def transform_slide_to_requests (theme : ThemeRgb) (slide_id : String)
    (slide : GSlide) : List Request :=
  let title_id := slide_id ++ "_title"
  let body_id := slide_id ++ "_body"
  let body_text := String.intercalate "\n"
    (slide.content.map (fun point => "• " ++ pyStrip point))
  [Request.createSlide (some slide_id) "TITLE_AND_BODY"
      [("TITLE", title_id), ("BODY", body_id)] none]
  ++ apply_theme_to_slide theme slide_id
  ++ [.insertText title_id slide.title,
      .insertText body_id body_text,
      .updateTextStyle title_id theme.title_text 24 (some true),
      .updateTextStyle body_id theme.body_text 18 none]

/-- Does a request insert text into the given object? -/
def isInsertTo (target : String) : Request → Bool
  | .insertText objectId _ => objectId == target
  | _ => false

/-- Does a request style text of the given object? -/
def isStyleTo (target : String) : Request → Bool
  | .updateTextStyle objectId _ _ _ => objectId == target
  | _ => false

/-- Is a request an `insertText` request? -/
def isInsertText : Request → Bool
  | .insertText _ _ => true
  | _ => false

/-- Is a request a `createSlide` request? -/
def isCreateSlide : Request → Bool
  | .createSlide _ _ _ _ => true
  | _ => false

/-- Is a request a `deleteObject` request? -/
def isDeleteObject : Request → Bool
  | .deleteObject _ => true
  | _ => false

/-- The `insertionIndex` carried by a request, when any. -/
def insertionIndexOf : Request → Option ℕ
  | .createSlide _ _ _ insertionIndex => insertionIndex
  | _ => none

/-- The object id targeted by an `insertText` or `updateTextStyle`
request. -/
def textTargetOf : Request → Option String
  | .insertText objectId _ => some objectId
  | .updateTextStyle objectId _ _ _ => some objectId
  | _ => none

/-- Every object identifier a request mentions (its target and, for
`createSlide`, the declared placeholder object ids). -/
def targetsOf : Request → List String
  | .createSlide objectId _ placeholderIdMappings _ =>
    objectId.toList ++ placeholderIdMappings.map Prod.snd
  | .insertText objectId _ => [objectId]
  | .updateTextStyle objectId _ _ _ => [objectId]
  | .updateParagraphStyle objectId => [objectId]
  | .updatePageProperties objectId _ => [objectId]
  | .updateShapeProperties objectId _ => [objectId]
  | .deleteObject objectId => [objectId]

/-- All object identifiers mentioned by the compiled requests of one
slide. -/
def slideTargets (theme : ThemeRgb) (slide_id : String) (slide : GSlide) :
    List String :=
  (transform_slide_to_requests theme slide_id slide).flatMap targetsOf

/-- No identifier is shared between two target lists. -/
def targetsDisjoint (l1 l2 : List String) : Bool :=
  l1.all (fun t1 => l2.all (fun t2 => t1 != t2))

/-- Every `insertText`/`updateTextStyle` in `reqs` targets `a` or `b`. -/
def textTargetsWithin (reqs : List Request) (a b : String) : Bool :=
  reqs.all (fun r =>
    match textTargetOf r with
    | some t => t == a || t == b
    | none => true)

/-- Every identifier mentioned in `reqs` is `slideId`, `a` or `b`. -/
def allTargetsWithin (reqs : List Request) (slideId a b : String) : Bool :=
  reqs.all (fun r => (targetsOf r).all (fun t => t == slideId || t == a || t == b))

/-- One element returned by the per-page read
(`presentations().pages().get`): its object id and, when the element is a
placeholder shape, the placeholder type. -/
structure PageElement where
  objectId : String
  placeholderType : Option String
deriving DecidableEq

/-- The remote authoring service, modelled as an oracle for the calls
`app.create_slides` makes: creating the presentation, the phase-1 batch
(whose reply is the list of per-request reply records, `some slideId` for
a `createSlide` reply), the per-page element read, and the phase-2 batch.
An `error` value models the service call raising. -/
structure ServiceBehavior where
  createPresentationResult : Except String String
  batchUpdate1Result : Except String (List (Option String))
  pageElementsOf : String → List PageElement
  batchUpdate2Result : Except String Unit

/-- A call issued to the remote service, in issue order. -/
inductive ServiceCall where
  | createPresentation (title : String)
  | batchUpdate (requests : List Request)
  | getPage (pageObjectId : String)
deriving DecidableEq

/-- The response of the `create_slides` route: `jsonify` of either
`{success: True, presentation_url}` or `{success: False, error}`. -/
inductive CSResponse where
  | success (presentation_url : String)
  | failure (error : String)
deriving DecidableEq

/-- Overwrite-or-append on an association list (Python dict assignment). -/
def assocSet (l : List (String × String)) (k v : String) : List (String × String) :=
  if l.any (fun p => p.1 == k) then
    l.map (fun p => if p.1 == k then (k, v) else p)
  else l ++ [(k, v)]

/-- First-match lookup on an association list (Python dict read). -/
def assocGet : List (String × String) → String → Option String
  | [], _ => none
  | (k, v) :: rest, key => if k = key then some v else assocGet rest key

/-- The `placeholder_ids` dict built by `create_slides` from one page's
elements: TITLE/SUBTITLE/BODY placeholders are mapped to their object
ids (later elements overwrite earlier ones; FOOTER is never mapped). -/
def buildPlaceholderIds (elements : List PageElement) : List (String × String) :=
  elements.foldl (fun acc e =>
    match e.placeholderType with
    | some "TITLE" => assocSet acc phTITLE e.objectId
    | some "SUBTITLE" => assocSet acc phSUBTITLE e.objectId
    | some "BODY" => assocSet acc phBODY e.objectId
    | _ => acc) []

/-- The placeholder-replacement loop of `create_slides`: each symbolic
`insertText` whose token is mapped is re-targeted to the service-assigned
id and kept; unmapped ones are dropped. -/
def replaceTargets (placeholder_ids : List (String × String)) :
    List Request → List Request
  | [] => []
  | .insertText objectId text :: rest =>
    (match assocGet placeholder_ids objectId with
     | some newId => [Request.insertText newId text]
     | none => []) ++ replaceTargets placeholder_ids rest
  | _ :: rest => replaceTargets placeholder_ids rest

/-- The region-discovery loop of `create_slides` (lines 558–584): for the
`i`-th created slide id, read the page, build the placeholder map,
re-transform `slides_content[i]` and collect its re-targeted text
requests.  Indexing past the end of `slides_content` raises `IndexError`;
the page read that already happened stays in the call trace. -/
def buildTextRequests (pages : String → List PageElement)
    (slides_content : List ProcessedSlide) :
    ℕ → List String → Except String (List Request) × List ServiceCall
  | _, [] => (.ok [], [])
  | i, slide_id :: rest =>
    let call := ServiceCall.getPage slide_id
    let placeholder_ids := buildPlaceholderIds (pages slide_id)
    match slides_content.get? i with
    | none => (.error "list index out of range", [call])
    | some s =>
      let slideTexts :=
        replaceTargets placeholder_ids (transform_slide_content (toTSlide s)).text_requests
      match buildTextRequests pages slides_content (i + 1) rest with
      | (.error e, calls) => (.error e, call :: calls)
      | (.ok more, calls) => (.ok (slideTexts ++ more), call :: calls)

/-- `app.create_slides` (POST branch), as a function of the service
oracle, the requested title, and the outcome of
`generate_slide_content_with_gpt` (a raised `ValueError` is caught by the
route's outer handler).  Returns the route's JSON response and the exact
sequence of service calls issued.  The database save cannot change the
response (its exceptions are swallowed). -/
def create_slides (svc : ServiceBehavior) (title : String)
    (generated : Except String (List ProcessedSlide)) :
    CSResponse × List ServiceCall :=
  match svc.createPresentationResult with
  | .error e => (.failure e, [.createPresentation title])
  | .ok presentation_id =>
    match generated with
    | .error e => (.failure e, [.createPresentation title])
    | .ok slides_content =>
      if slides_content.isEmpty then
        (.failure "Failed to generate slide content. Please try again.",
         [.createPresentation title])
      else
        let all_requests := phase1Batch slides_content
        match svc.batchUpdate1Result with
        | .error e =>
          (.failure e, [.createPresentation title, .batchUpdate all_requests])
        | .ok replies =>
          let slide_ids := replies.filterMap id
          let (textResult, getCalls) :=
            buildTextRequests svc.pageElementsOf slides_content 0 slide_ids
          let baseCalls :=
            [ServiceCall.createPresentation title, .batchUpdate all_requests] ++ getCalls
          match textResult with
          | .error e => (.failure e, baseCalls)
          | .ok text_requests =>
            if text_requests.isEmpty then
              (.success ("https://docs.google.com/presentation/d/" ++ presentation_id ++ "/edit"),
               baseCalls)
            else
              match svc.batchUpdate2Result with
              | .error e => (.failure e, baseCalls ++ [.batchUpdate text_requests])
              | .ok _ =>
                (.success ("https://docs.google.com/presentation/d/" ++ presentation_id ++ "/edit"),
                 baseCalls ++ [.batchUpdate text_requests])

/-- Does a service call submit a batch containing a `deleteObject`? -/
def callDeletes : ServiceCall → Bool
  | .batchUpdate requests => requests.any isDeleteObject
  | _ => false

/-- Does any issued batch contain a `deleteObject` request? -/
def callsContainDelete (calls : List ServiceCall) : Bool :=
  calls.any callDeletes

/-!  ## Helper lemmas shared across the claim theorems -/

theorem lookupTheme_writeTheme_of_found (tb : List (String × ThemeEntry))
    (id : String) (u t : ThemeEntry) (h : lookupTheme tb id = some u) :
    lookupTheme (writeTheme tb id t) id = some t := by
  induction tb with
  | nil => simp [lookupTheme] at h
  | cons p rest ih =>
    obtain ⟨k, v⟩ := p
    by_cases hk : k = id
    · subst hk
      simp [lookupTheme, writeTheme]
    · simp [lookupTheme, writeTheme, hk] at h ⊢
      exact ih h

theorem writeTheme_writeTheme (tb : List (String × ThemeEntry))
    (id : String) (t : ThemeEntry) :
    writeTheme (writeTheme tb id t) id t = writeTheme tb id t := by
  induction tb with
  | nil => rfl
  | cons p rest ih =>
    obtain ⟨k, v⟩ := p
    by_cases hk : k = id <;> simp [writeTheme, hk, ih]

theorem enrichTheme_enrichTheme (t : ThemeEntry) :
    enrichTheme (enrichTheme t) = enrichTheme t := rfl

theorem get_theme_stable (theme_id : String)
    (tb tb1 : List (String × ThemeEntry)) (t1 : ThemeEntry)
    (h : get_theme theme_id tb = .ok (t1, tb1)) :
    get_theme theme_id tb1 = .ok (t1, tb1) := by
  unfold get_theme at h ⊢
  cases hl : lookupTheme tb theme_id with
  | none => rw [hl] at h; exact absurd h (by simp)
  | some u =>
    rw [hl] at h
    simp only [Except.ok.injEq, Prod.mk.injEq] at h
    obtain ⟨ht, htb⟩ := h
    rw [← htb, lookupTheme_writeTheme_of_found tb theme_id u (enrichTheme u) hl]
    have he : enrichTheme (enrichTheme u) = enrichTheme u := rfl
    simp only [← ht, he, writeTheme_writeTheme]

/-!  ## C1 -/

/-- C1 (corrected): for a malformed or unparseable raw outline, the
normalizer does not build a two-slide fallback deck — it fails:
`generate_slide_content_with_gpt` raises the generic
`Failed to generate slide content` error (for unparseable strings and for
parsed values that are not a sequence alike), and
`SlidesGenerator._parse_gpt_response` returns `None`. -/
theorem C1_amended_no_fallback_deck (title msg : String) :
    generate_slide_content title (.parseError msg) =
      .error "Failed to generate slide content" ∧
    generate_slide_content title .parsedNonList =
      .error "Failed to generate slide content" ∧
    parse_gpt_response (.parseError msg) = none ∧
    parse_gpt_response .parsedNonList = none :=
  ⟨rfl, rfl, rfl, rfl⟩

/-- C1 counterexample: on the unparseable outline `"not json at all"`
(`json.loads` raises on the cleaned string) and fallback title
`"Q3 Review"`, the normalizer raises instead of returning a two-slide
fallback deck, contradicting the claim. -/
theorem C1_counterexample :
    generate_slide_content "Q3 Review" (.parseError "Expecting value: line 1 column 1") =
      .error "Failed to generate slide content" := rfl

/-!  ## C2 -/

/-- C2 (confirmed): theme resolution as the pipeline performs it
(`SlidesGenerator.__init__` wrapping `themes.get_theme`) is total: a known
identifier resolves to the preset palette computed from its table entry,
and any unknown identifier resolves to the hard-coded neutral default
whose background is RGB (1,1,1). -/
theorem C2_theme_resolution_total (theme_id : String) :
    (∀ t, lookupTheme PRESENTATION_THEMES theme_id = some t →
      resolveTheme theme_id = themeRgbOfColors t.colors) ∧
    (lookupTheme PRESENTATION_THEMES theme_id = none →
      resolveTheme theme_id = defaultThemeRgb) ∧
    defaultThemeRgb.background = { red := 1, green := 1, blue := 1, alpha := none } := by
  refine ⟨?_, ?_, rfl⟩
  · intro t h
    unfold resolveTheme get_theme
    rw [h]
    rfl
  · intro h
    unfold resolveTheme get_theme
    rw [h]

/-- C2 witness: the unknown identifier `"nonexistent"` resolves to the
default theme with background (1,1,1), and `"corporate"` resolves to its
preset palette. -/
theorem C2_witness :
    resolveTheme "nonexistent" = defaultThemeRgb ∧
    resolveTheme "corporate" = themeRgbOfColors corporateEntry.colors ∧
    defaultThemeRgb.background = { red := 1, green := 1, blue := 1, alpha := none } :=
  ⟨(C2_theme_resolution_total "nonexistent").2.1 rfl,
   (C2_theme_resolution_total "corporate").1 corporateEntry rfl,
   (C2_theme_resolution_total "corporate").2.2⟩

/-!  ## C3 -/

/-- C3 (code_bug): evaluating the normalizer on the well-formed two-entry
legacy outline of the spec scenario
(`[{"type":"TITLE","main_points":["Q3 Update"]},
    {"type":"BODY","main_points":["Sales","Up 12%","New markets"]}]`)
with caller-supplied title `"Q3 Review"`: the slide count is preserved
(2 in, 2 out), but slide 0 keeps the generator title `"Q3 Update"` — the
legacy branch overwrites the loop-local `title` variable before the
"Force first slide title" assignment reads it, so the caller title does
not win. -/
theorem C3_first_slide_title_eval :
    generate_slide_content "Q3 Review" (.parsedList
      [.obj { type_ := some "TITLE", main_points := some ["Q3 Update"] },
       .obj { type_ := some "BODY", main_points := some ["Sales", "Up 12%", "New markets"] }]) =
    .ok [{ id := "slide_1", title := "Q3 Update", content := [] },
         { id := "slide_2", title := "Sales", content := ["Up 12%", "New markets"] }] := rfl

/-!  ## C4 -/

/-- C4 (corrected): per-entry normalization.  A legacy entry with
non-empty `main_points` is folded to title = stripped first element
(placeholder if all-whitespace) and bullets = stripped remainder, and it
reassigns the tracked presentation-title variable.  A `{title, content}`
entry is kept with its strings whitespace-stripped (not verbatim).  The
`Slide {index+1}` placeholder applies only when the entry's own stripped
title is empty — a legacy entry with EMPTY `main_points` instead inherits
the current presentation-title variable. -/
theorem C4_amended_entry_normalization (curTitle p ty t : String)
    (ps c : List String) (i : ℕ) (h : 0 < i) :
    processEntry curTitle i (.obj { type_ := some ty, main_points := some (p :: ps) }) =
      .ok ({ id := s!"slide_{i + 1}",
             title := if pyStrip p = "" then s!"Slide {i + 1}" else pyStrip p,
             content := ps.map pyStrip }, p) ∧
    processEntry curTitle i (.obj { title := some t, content := some c }) =
      .ok ({ id := s!"slide_{i + 1}",
             title := if pyStrip t = "" then s!"Slide {i + 1}" else pyStrip t,
             content := c.map pyStrip }, curTitle) ∧
    processEntry curTitle i (.obj { type_ := some ty, main_points := some [] }) =
      .ok ({ id := s!"slide_{i + 1}",
             title := if pyStrip curTitle = "" then s!"Slide {i + 1}"
               else pyStrip curTitle,
             content := [] }, curTitle) := by
  have hi : ¬ i = 0 := by omega
  refine ⟨?_, ?_, ?_⟩ <;> simp [processEntry, hi]

/-- C4 witness: concrete instances of the three entry shapes at index 1. -/
theorem C4_witness :
    processEntry "Deck" 1 (.obj { type_ := some "X", main_points := some ["P1", "a"] }) =
      .ok ({ id := "slide_2", title := "P1", content := ["a"] }, "P1") ∧
    processEntry "Deck" 1 (.obj { title := some " B ", content := some [" x "] }) =
      .ok ({ id := "slide_2", title := "B", content := ["x"] }, "Deck") ∧
    processEntry "Deck" 1 (.obj { type_ := some "X", main_points := some [] }) =
      .ok ({ id := "slide_2", title := "Deck", content := [] }, "Deck") :=
  C4_amended_entry_normalization "Deck" "P1" "X" " B " ["a"] [" x "] 1 (by decide)

/-- C4 counterexample: with presentation title `"Deck"` and the outline
`[{"title":"A","content":[]}, {"title":" B ","content":[" x "]},
  {"type":"X","main_points":[]}]`, entry 1 is not accepted unchanged (its
strings are stripped to `"B"`/`"x"`), and entry 2 — which has no usable
title — receives the inherited presentation title `"Deck"` instead of the
claimed placeholder `"Slide 3"`. -/
theorem C4_counterexample :
    generate_slide_content "Deck" (.parsedList
      [.obj { title := some "A", content := some [] },
       .obj { title := some " B ", content := some [" x "] },
       .obj { type_ := some "X", main_points := some [] }]) =
    .ok [{ id := "slide_1", title := "Deck", content := [] },
         { id := "slide_2", title := "B", content := ["x"] },
         { id := "slide_3", title := "Deck", content := [] }] := rfl

/-!  ## C8 -/

/-- C8 (corrected): resolving the same identifier twice yields
bit-identical Theme values — the second `get_theme` call returns exactly
the first call's entry and leaves the table exactly as the first call left
it (the stored `rgb_colors` is recomputed to the same value) — but
resolution DOES mutate the process-wide preset table on first call, which
is shown by `C8_counterexample`. -/
theorem C8_amended_resolution_idempotent (theme_id : String) (t1 : ThemeEntry)
    (tb1 : List (String × ThemeEntry))
    (h : get_theme theme_id PRESENTATION_THEMES = .ok (t1, tb1)) :
    get_theme theme_id tb1 = .ok (t1, tb1) ∧
    resolveTheme theme_id = t1.rgb_colors.getD defaultThemeRgb := by
  refine ⟨get_theme_stable theme_id PRESENTATION_THEMES tb1 t1 h, ?_⟩
  unfold resolveTheme
  rw [h]

/-- C8 witness: the second resolution of `"corporate"` returns the same
enriched entry and the same table state as the first. -/
theorem C8_witness :
    get_theme "corporate"
        (writeTheme PRESENTATION_THEMES "corporate" (enrichTheme corporateEntry)) =
      .ok (enrichTheme corporateEntry,
           writeTheme PRESENTATION_THEMES "corporate" (enrichTheme corporateEntry)) :=
  (C8_amended_resolution_idempotent "corporate" (enrichTheme corporateEntry)
    (writeTheme PRESENTATION_THEMES "corporate" (enrichTheme corporateEntry)) rfl).1

/-- C8 counterexample: `get_theme` mutates the process-wide preset table —
after resolving `"corporate"` the table differs from its initial state
(the shared `corporate` entry has gained the `rgb_colors` key),
contradicting "never mutates the process-wide theme preset table". -/
theorem C8_counterexample : tableAfterGetTheme "corporate" ≠ PRESENTATION_THEMES := by
  intro h
  have h2 := congrArg
    (fun tb => (lookupTheme tb "corporate").map (fun t => t.rgb_colors.isSome)) h
  simp [tableAfterGetTheme, get_theme, lookupTheme, PRESENTATION_THEMES, writeTheme,
    enrichTheme, corporateEntry] at h2

/-!  ## C5 -/

theorem string_append_ne_of_ne_length (a b c d : String)
    (h : a.length + c.length ≠ b.length + d.length) : a ++ c ≠ b ++ d := by
  intro he
  apply h
  rw [← String.length_append, ← String.length_append, he]

theorem string_append_right_cancel (a b c : String) (h : a ++ c = b ++ c) :
    a = b :=
  String.ext (List.append_cancel_right
    (by rw [← String.data_append, ← String.data_append, h]))


/-- C5 (corrected): in the two-phase `create_slides` flow the population
batch is built only from re-targeted `insertText` requests, so it contains
no style operation at all (the ordering constraint holds vacuously).  In
the single combined batch of
`SlidesGenerator.transform_slide_to_requests`, each region's
text-insertion precedes a style operation for that region (the re-applied
style pass) — but the theme-application pass also emits a style operation
for each of the title and body regions BEFORE the insertion, so the
insertion index is not below every style index. -/
theorem C5_amended_ordering (theme : ThemeRgb) (sid : String) (s : GSlide)
    (p : TSlide) :
    (transform_slide_content p).text_requests.all isInsertText = true ∧
    ((transform_slide_to_requests theme sid s).drop
        ((transform_slide_to_requests theme sid s).findIdx
          (isInsertTo (sid ++ "_title")) + 1)).any
      (isStyleTo (sid ++ "_title")) = true ∧
    ((transform_slide_to_requests theme sid s).drop
        ((transform_slide_to_requests theme sid s).findIdx
          (isInsertTo (sid ++ "_body")) + 1)).any
      (isStyleTo (sid ++ "_body")) = true ∧
    ((transform_slide_to_requests theme sid s).take
        ((transform_slide_to_requests theme sid s).findIdx
          (isInsertTo (sid ++ "_title")))).any
      (isStyleTo (sid ++ "_title")) = true ∧
    ((transform_slide_to_requests theme sid s).take
        ((transform_slide_to_requests theme sid s).findIdx
          (isInsertTo (sid ++ "_body")))).any
      (isStyleTo (sid ++ "_body")) = true := by
  have hTB : (sid ++ "_title") ≠ (sid ++ "_body") :=
    string_append_ne_of_ne_length sid sid "_title" "_body" (by
      show sid.length + 6 ≠ sid.length + 5
      omega)
  have hBT : (sid ++ "_body") ≠ (sid ++ "_title") :=
    string_append_ne_of_ne_length sid sid "_body" "_title" (by
      show sid.length + 5 ≠ sid.length + 6
      omega)
  have e1 : ((sid ++ "_title") == (sid ++ "_body")) = false :=
    beq_eq_false_iff_ne.mpr hTB
  have e2 : ((sid ++ "_body") == (sid ++ "_title")) = false :=
    beq_eq_false_iff_ne.mpr hBT
  refine ⟨?_, ?_, ?_, ?_, ?_⟩
  · unfold transform_slide_content
    repeat' split <;> simp [isInsertText] <;> aesop
  all_goals
    simp [transform_slide_to_requests, apply_theme_to_slide, isInsertTo, isStyleTo,
      List.findIdx_cons, e1, e2]

/-- C5 counterexample: for a concrete slide, the theme pass styles the
title region at batch index 2 while the title text is only inserted at
index 5 — a style operation precedes the insertion it targets,
contradicting the claimed strict ordering. -/
theorem C5_counterexample :
    ((transform_slide_to_requests defaultThemeRgb "s" { title := "T", content := ["a"] }).findIdx
        (isStyleTo "s_title")) = 2 ∧
    ((transform_slide_to_requests defaultThemeRgb "s" { title := "T", content := ["a"] }).findIdx
        (isInsertTo "s_title")) = 5 ∧
    ((transform_slide_to_requests defaultThemeRgb "s" { title := "T", content := ["a"] }).findIdx
        (isStyleTo "s_title")) <
      ((transform_slide_to_requests defaultThemeRgb "s" { title := "T", content := ["a"] }).findIdx
        (isInsertTo "s_title")) := by
  refine ⟨rfl, rfl, ?_⟩
  show (2 : ℕ) < 5
  decide

/-!  ## C6 -/

/-- C6 (corrected): the phase-1 batch of `create_slides` contains exactly
one create-slide operation per normalized slide, in generator order, and
zero insert-text operations — but the operations carry NO insertion index
(slide order comes only from batch position; processed slides carry no
`type` key, so every create uses the `TITLE` layout). -/
theorem C6_amended_phase1_batch (slides_content : List ProcessedSlide) :
    phase1Batch slides_content =
      slides_content.map (fun _ => Request.createSlide none "TITLE" [] none) ∧
    (phase1Batch slides_content).length = slides_content.length ∧
    (phase1Batch slides_content).all
      (fun r => isCreateSlide r && !isInsertText r && (insertionIndexOf r).isNone) = true := by
  refine ⟨?_, ?_, ?_⟩ <;>
    simp [phase1Batch, transform_slide_content, toTSlide, layout_mapping_get,
      isCreateSlide, isInsertText, insertionIndexOf]

/-- C6 counterexample: the phase-1 batch for three slides has three
create-slide operations, none of which carries an insertion index — the
claimed explicit indices 0, 1, 2 are absent from the operations. -/
theorem C6_counterexample :
    (phase1Batch [{ id := "slide_1", title := "Intro", content := [] },
                  { id := "slide_2", title := "Body", content := ["x"] },
                  { id := "slide_3", title := "End", content := [] }]).map insertionIndexOf =
      [none, none, none] ∧
    (phase1Batch [{ id := "slide_1", title := "Intro", content := [] },
                  { id := "slide_2", title := "Body", content := ["x"] },
                  { id := "slide_3", title := "End", content := [] }]).all
      (fun r => !isInsertText r) = true :=
  ⟨rfl, rfl⟩

/-!  ## C7 -/

/-- The slide types `app.transform_slide_content` recognizes. -/
def knownSlideTypes : List String :=
  ["TITLE", "AGENDA", "SECTION", "SUMMARY", "CLOSING"]

/-- The object the first emitted text request targets, if any. -/
def firstTextTarget (t : Transformed) : Option String :=
  t.text_requests.head?.bind textTargetOf

/-- C7 (corrected): layout selection is total and follows the fixed tag
table (TITLE→TITLE, AGENDA→SECTION_HEADER, SECTION→TITLE_AND_BODY,
SUMMARY→TITLE_AND_BODY, CLOSING→SECTION_HEADER), with every unknown type
falling back to TITLE_AND_BODY, the content layout (a missing `type` key
defaults to TITLE).  Every KNOWN type's first text operation targets the
Title region — but for an unknown type NO text operation is emitted, so no
Title region is targeted (shown by `C7_counterexample`). -/
theorem C7_amended_layout_selection (slide : TSlide) (t : String) :
    layout_mapping_get "TITLE" = "TITLE" ∧
    layout_mapping_get "AGENDA" = "SECTION_HEADER" ∧
    layout_mapping_get "SECTION" = "TITLE_AND_BODY" ∧
    layout_mapping_get "SUMMARY" = "TITLE_AND_BODY" ∧
    layout_mapping_get "CLOSING" = "SECTION_HEADER" ∧
    (t ∉ knownSlideTypes → layout_mapping_get t = "TITLE_AND_BODY") ∧
    (transform_slide_content slide).layout =
      layout_mapping_get (slide.type_.getD "TITLE") ∧
    (slide.type_.getD "TITLE" ∈ knownSlideTypes →
      firstTextTarget (transform_slide_content slide) = some phTITLE) ∧
    (slide.type_.getD "TITLE" ∉ knownSlideTypes →
      (transform_slide_content slide).text_requests = []) := by
  refine ⟨rfl, rfl, rfl, rfl, rfl, ?_, rfl, ?_, ?_⟩
  · intro h
    simp only [knownSlideTypes, List.mem_cons, List.not_mem_nil, or_false, not_or] at h
    obtain ⟨h1, h2, h3, h4, h5⟩ := h
    simp [layout_mapping_get, h1, h2, h3, h4, h5]
  · intro h
    simp only [knownSlideTypes, List.mem_cons, List.not_mem_nil, or_false] at h
    rcases h with h | h | h | h | h <;>
      simp [transform_slide_content, h, firstTextTarget, textTargetOf]
  · intro h
    simp only [knownSlideTypes, List.mem_cons, List.not_mem_nil, or_false, not_or] at h
    obtain ⟨h1, h2, h3, h4, h5⟩ := h
    simp [transform_slide_content, h1, h2, h3, h4, h5]

/-- C7 witness: an unknown type (`"CHART"`) falls back to the content
layout, and a known type (`"AGENDA"`) targets the Title region first. -/
theorem C7_witness :
    layout_mapping_get "CHART" = "TITLE_AND_BODY" ∧
    firstTextTarget (transform_slide_content { type_ := some "AGENDA" }) = some phTITLE :=
  ⟨(C7_amended_layout_selection { type_ := some "AGENDA" } "CHART").2.2.2.2.2.1 (by decide),
   (C7_amended_layout_selection { type_ := some "AGENDA" } "CHART").2.2.2.2.2.2.2.1 (by decide)⟩

/-- C7 counterexample: a slide whose type is the unknown `"CHART"` gets
the fallback content layout, but its compiled text operations are empty —
no operation targets a Title region, contradicting "every resulting
LayoutSpec exposes at least a Title region". -/
theorem C7_counterexample :
    (transform_slide_content { type_ := some "CHART" }).layout = "TITLE_AND_BODY" ∧
    (transform_slide_content { type_ := some "CHART" }).text_requests = [] :=
  ⟨rfl, rfl⟩

/-!  ## C9 -/

theorem replaceTargets_all_insertText (pids : List (String × String))
    (reqs : List Request) :
    (replaceTargets pids reqs).all isInsertText = true := by
  induction reqs with
  | nil => rfl
  | cons r rest ih =>
    cases r with
    | insertText oid txt =>
      simp only [replaceTargets]
      cases assocGet pids oid <;> simp [List.all_append, isInsertText, ih]
    | createSlide o l m j => simpa only [replaceTargets] using ih
    | updateTextStyle o c f b => simpa only [replaceTargets] using ih
    | updateParagraphStyle o => simpa only [replaceTargets] using ih
    | updatePageProperties o c => simpa only [replaceTargets] using ih
    | updateShapeProperties o c => simpa only [replaceTargets] using ih
    | deleteObject o => simpa only [replaceTargets] using ih

theorem all_insertText_no_delete (reqs : List Request)
    (h : reqs.all isInsertText = true) : reqs.any isDeleteObject = false := by
  induction reqs with
  | nil => rfl
  | cons r rest ih =>
    simp only [List.all_cons, Bool.and_eq_true] at h
    obtain ⟨h1, h2⟩ := h
    cases r with
    | insertText o t => simp [List.any_cons, isDeleteObject, ih h2]
    | createSlide o l m j => simp [isInsertText] at h1
    | updateTextStyle o c f b => simp [isInsertText] at h1
    | updateParagraphStyle o => simp [isInsertText] at h1
    | updatePageProperties o c => simp [isInsertText] at h1
    | updateShapeProperties o c => simp [isInsertText] at h1
    | deleteObject o => simp [isInsertText] at h1

theorem phase1Batch_no_delete (slides_content : List ProcessedSlide) :
    (phase1Batch slides_content).any isDeleteObject = false := by
  simp [phase1Batch, transform_slide_content, toTSlide, List.any_map,
    Function.comp, isDeleteObject]

theorem buildTextRequests_calls_no_delete (pages : String → List PageElement)
    (slides_content : List ProcessedSlide) (ids : List String) :
    ∀ i : ℕ,
      (buildTextRequests pages slides_content i ids).2.any callDeletes = false := by
  induction ids with
  | nil => intro i; rfl
  | cons sid rest ih =>
    intro i
    simp only [buildTextRequests]
    cases slides_content.get? i with
    | none => simp [callDeletes]
    | some sl =>
      cases hb : buildTextRequests pages slides_content (i + 1) rest with
      | mk res calls =>
        have hcalls := ih (i + 1)
        rw [hb] at hcalls
        cases res with
        | error e => simp [callDeletes, hcalls]
        | ok more => simp [callDeletes, hcalls]

theorem buildTextRequests_ok_all_insertText (pages : String → List PageElement)
    (slides_content : List ProcessedSlide) (ids : List String) :
    ∀ (i : ℕ) (trs : List Request),
      (buildTextRequests pages slides_content i ids).1 = .ok trs →
      trs.all isInsertText = true := by
  induction ids with
  | nil =>
    intro i trs h
    simp only [buildTextRequests, Except.ok.injEq] at h
    simp [← h]
  | cons sid rest ih =>
    intro i trs h
    simp only [buildTextRequests] at h
    cases hg : slides_content.get? i with
    | none =>
      rw [hg] at h
      simp at h
    | some sl =>
      rw [hg] at h
      cases hb : buildTextRequests pages slides_content (i + 1) rest with
      | mk res calls =>
        rw [hb] at h
        cases res with
        | error e => simp at h
        | ok more =>
          simp only [Except.ok.injEq] at h
          have hmore := ih (i + 1) more (by rw [hb])
          rw [← h]
          simp [List.all_append, replaceTargets_all_insertText, hmore]

theorem create_slides_no_delete (svc : ServiceBehavior) (title : String)
    (generated : Except String (List ProcessedSlide)) :
    callsContainDelete (create_slides svc title generated).2 = false := by
  unfold create_slides
  cases svc.createPresentationResult with
  | error e => simp [callsContainDelete, callDeletes]
  | ok pid =>
    cases generated with
    | error e => simp [callsContainDelete, callDeletes]
    | ok slides_content =>
      cases slides_content with
      | nil => simp [callsContainDelete, callDeletes]
      | cons s0 srest =>
        cases svc.batchUpdate1Result with
        | error e =>
          simp [callsContainDelete, callDeletes, phase1Batch_no_delete]
        | ok replies =>
          dsimp only
          cases hb : buildTextRequests svc.pageElementsOf (s0 :: srest) 0
              (replies.filterMap id) with
          | mk textResult getCalls =>
            have hcalls := buildTextRequests_calls_no_delete svc.pageElementsOf
              (s0 :: srest) (replies.filterMap id) 0
            rw [hb] at hcalls
            simp only at hcalls
            cases textResult with
            | error e =>
              simp [callsContainDelete, callDeletes, List.any_append,
                phase1Batch_no_delete, hcalls]
            | ok text_requests =>
              have htrs := buildTextRequests_ok_all_insertText svc.pageElementsOf
                (s0 :: srest) (replies.filterMap id) 0 text_requests (by rw [hb])
              cases text_requests with
              | nil =>
                simp [callsContainDelete, callDeletes, List.any_append,
                  phase1Batch_no_delete, hcalls]
              | cons t0 trest =>
                cases svc.batchUpdate2Result with
                | error e =>
                  simp [callsContainDelete, callDeletes, List.any_append,
                    phase1Batch_no_delete, hcalls,
                    all_insertText_no_delete (t0 :: trest) htrs]
                | ok u =>
                  simp [callsContainDelete, callDeletes, List.any_append,
                    phase1Batch_no_delete, hcalls,
                    all_insertText_no_delete (t0 :: trest) htrs]

/-- C9 (corrected): when the phase-2 (population) submission fails after
the phase-1 (creation) submission succeeded, `create_slides` returns the
same `{success: False, error}` failure shape as a total failure — NOT a
distinct partial-success outcome, and without the created deck identifier
— though it is true that no delete operation is ever issued against the
partially-created deck. -/
theorem C9_amended_phase2_failure (svc : ServiceBehavior)
    (title pid e : String) (replies : List (Option String))
    (slides_content : List ProcessedSlide) (trs : List Request)
    (h1 : svc.createPresentationResult = .ok pid)
    (h2 : svc.batchUpdate1Result = .ok replies)
    (h3 : svc.batchUpdate2Result = .error e)
    (hs : slides_content.isEmpty = false)
    (h4 : (buildTextRequests svc.pageElementsOf slides_content 0
            (replies.filterMap id)).1 = .ok trs)
    (h5 : trs.isEmpty = false) :
    (create_slides svc title (.ok slides_content)).1 = .failure e ∧
    callsContainDelete (create_slides svc title (.ok slides_content)).2 = false := by
  refine ⟨?_, create_slides_no_delete svc title (.ok slides_content)⟩
  unfold create_slides
  rw [h1, h2]
  dsimp only
  simp only [hs, Bool.false_eq_true, if_false]
  cases hb : buildTextRequests svc.pageElementsOf slides_content 0
      (replies.filterMap id) with
  | mk textResult getCalls =>
    rw [hb] at h4
    simp only at h4
    subst h4
    simp [h5, h3]

/-- A service oracle for which presentation creation and the phase-1
batch succeed but the phase-2 (population) batch raises. -/
def svcPhase2Fails : ServiceBehavior :=
  { createPresentationResult := .ok "P123",
    batchUpdate1Result := .ok [some "s1"],
    pageElementsOf := fun _ => [{ objectId := "t1", placeholderType := some "TITLE" }],
    batchUpdate2Result := .error "quota exceeded" }

/-- A service oracle for which the initial presentation creation raises
(total failure: no deck exists at all). -/
def svcCreateFails : ServiceBehavior :=
  { createPresentationResult := .error "quota exceeded",
    batchUpdate1Result := .error "quota exceeded",
    pageElementsOf := fun _ => [],
    batchUpdate2Result := .error "quota exceeded" }

/-- C9 witness: on the concrete oracle where phase 2 fails after phase 1
succeeded, the route answers with the failure shape and no delete is
issued. -/
theorem C9_witness :
    (create_slides svcPhase2Fails "T"
      (.ok [{ id := "slide_1", title := "A", content := ["x"] }])).1 =
        .failure "quota exceeded" ∧
    callsContainDelete (create_slides svcPhase2Fails "T"
      (.ok [{ id := "slide_1", title := "A", content := ["x"] }])).2 = false :=
  C9_amended_phase2_failure svcPhase2Fails "T" "P123" "quota exceeded"
    [some "s1"] [{ id := "slide_1", title := "A", content := ["x"] }]
    [.insertText "t1" "A"] rfl rfl rfl rfl rfl rfl

/-- C9 counterexample: a phase-2 failure after successful creation and a
total failure at creation produce THE SAME response value — `success:
False` with the error string and no deck identifier — so the phase-2
outcome is not a partial-success outcome distinct from total failure and
does not include the created deck identifier. -/
theorem C9_counterexample :
    (create_slides svcPhase2Fails "T"
      (.ok [{ id := "slide_1", title := "A", content := ["x"] }])).1 =
      .failure "quota exceeded" ∧
    (create_slides svcCreateFails "T"
      (.ok [{ id := "slide_1", title := "A", content := ["x"] }])).1 =
      .failure "quota exceeded" ∧
    (create_slides svcPhase2Fails "T"
      (.ok [{ id := "slide_1", title := "A", content := ["x"] }])).1 =
    (create_slides svcCreateFails "T"
      (.ok [{ id := "slide_1", title := "A", content := ["x"] }])).1 :=
  ⟨rfl, rfl, rfl⟩

/-!  ## C10 -/

/-- C10 (confirmed): with `uuid.uuid4()` modelled as a supply of distinct
36-character strings (every `str(uuid.uuid4())` has exactly 36
characters), `transform_slide_to_requests` declares the placeholder
mappings TITLE ↦ `{slide_id}_title`, BODY ↦ `{slide_id}_body` on its
create-slide operation, every `insertText`/`updateTextStyle` it emits
targets one of those two declared identifiers, every identifier it
mentions is the slide id or one of the two, and two slides compiled with
distinct uuids share no target identifier. -/
theorem C10_compiler_target_isolation (theme : ThemeRgb)
    (slide1 slide2 : GSlide) (sid1 sid2 : String)
    (hl1 : sid1.length = 36) (hl2 : sid2.length = 36) (hne : sid1 ≠ sid2) :
    (transform_slide_to_requests theme sid1 slide1).head? =
      some (Request.createSlide (some sid1) "TITLE_AND_BODY"
        [("TITLE", sid1 ++ "_title"), ("BODY", sid1 ++ "_body")] none) ∧
    textTargetsWithin (transform_slide_to_requests theme sid1 slide1)
      (sid1 ++ "_title") (sid1 ++ "_body") = true ∧
    allTargetsWithin (transform_slide_to_requests theme sid1 slide1)
      sid1 (sid1 ++ "_title") (sid1 ++ "_body") = true ∧
    targetsDisjoint (slideTargets theme sid1 slide1)
      (slideTargets theme sid2 slide2) = true := by
  have t6 : ("_title" : String).length = 6 := rfl
  have b5 : ("_body" : String).length = 5 := rfl
  have n1 : sid1 ≠ sid2 ++ "_title" := by
    intro he
    have hl := congrArg String.length he
    rw [String.length_append, hl1, hl2] at hl
    omega
  have n2 : sid1 ≠ sid2 ++ "_body" := by
    intro he
    have hl := congrArg String.length he
    rw [String.length_append, hl1, hl2] at hl
    omega
  have n3 : sid1 ++ "_title" ≠ sid2 := by
    intro he
    have hl := congrArg String.length he
    rw [String.length_append, hl1, hl2] at hl
    omega
  have n4 : sid1 ++ "_title" ≠ sid2 ++ "_title" := by
    intro he
    exact hne (string_append_right_cancel sid1 sid2 "_title" he)
  have n5 : sid1 ++ "_title" ≠ sid2 ++ "_body" := by
    intro he
    have hl := congrArg String.length he
    rw [String.length_append, String.length_append, hl1, hl2] at hl
    omega
  have n6 : sid1 ++ "_body" ≠ sid2 := by
    intro he
    have hl := congrArg String.length he
    rw [String.length_append, hl1, hl2] at hl
    omega
  have n7 : sid1 ++ "_body" ≠ sid2 ++ "_title" := by
    intro he
    have hl := congrArg String.length he
    rw [String.length_append, String.length_append, hl1, hl2] at hl
    omega
  have n8 : sid1 ++ "_body" ≠ sid2 ++ "_body" := by
    intro he
    exact hne (string_append_right_cancel sid1 sid2 "_body" he)
  refine ⟨rfl, ?_, ?_, ?_⟩
  · simp [textTargetsWithin, transform_slide_to_requests, apply_theme_to_slide,
      textTargetOf]
  · simp [allTargetsWithin, transform_slide_to_requests, apply_theme_to_slide,
      targetsOf]
  · simp [targetsDisjoint, slideTargets, transform_slide_to_requests,
      apply_theme_to_slide, targetsOf, hne, n1, n2, n3, n4, n5, n6, n7, n8]

/-- A fixed 36-character uuid4-format identifier. -/
def uuidA : String := "6fa459ea-ee8a-3ca4-894e-db77e160355e"

/-- A second, distinct 36-character uuid4-format identifier. -/
def uuidB : String := "16fd2706-8baf-433b-82eb-8c7fada847da"

/-- C10 witness: two concrete slides compiled with two concrete distinct
uuids satisfy the declared-mapping, target-confinement and disjointness
properties. -/
theorem C10_witness :
    (transform_slide_to_requests defaultThemeRgb uuidA
        { title := "Intro", content := ["a", "b"] }).head? =
      some (Request.createSlide (some uuidA) "TITLE_AND_BODY"
        [("TITLE", uuidA ++ "_title"), ("BODY", uuidA ++ "_body")] none) ∧
    textTargetsWithin (transform_slide_to_requests defaultThemeRgb uuidA
        { title := "Intro", content := ["a", "b"] })
      (uuidA ++ "_title") (uuidA ++ "_body") = true ∧
    allTargetsWithin (transform_slide_to_requests defaultThemeRgb uuidA
        { title := "Intro", content := ["a", "b"] })
      uuidA (uuidA ++ "_title") (uuidA ++ "_body") = true ∧
    targetsDisjoint
      (slideTargets defaultThemeRgb uuidA { title := "Intro", content := ["a", "b"] })
      (slideTargets defaultThemeRgb uuidB { title := "End", content := [] }) = true :=
  C10_compiler_target_isolation defaultThemeRgb
    { title := "Intro", content := ["a", "b"] } { title := "End", content := [] }
    uuidA uuidB (by decide) (by decide) (by decide)
